/-
Verification of the google-drive-upload-action Go program (src/main.go).

The program is shallowly embedded: the remote Google Drive API and the local
filesystem are modelled by an explicit environment of response functions, and
every remote call the program issues is recorded in an `ApiCall` trace.
Go standard-library helpers used by the program (`filepath.Dir`,
`filepath.Base`, `strings.Replace`, `strconv.ParseBool`) are modelled as
executable Lean functions with unix path separators.
-/
import Mathlib

namespace DriveUpload

/-- Model of Go `strconv.ParseBool`: the twelve accepted literals, every
other string is a syntax error (Go returns `false` together with the error). -/
def goParseBool (s : String) : Except Unit Bool :=
  if s = "1" ∨ s = "t" ∨ s = "T" ∨ s = "true" ∨ s = "TRUE" ∨ s = "True" then
    .ok true
  else if s = "0" ∨ s = "f" ∨ s = "F" ∨ s = "false" ∨ s = "FALSE" ∨ s = "False" then
    .ok false
  else
    .error ()

/-- Model of the Go pattern `flag, _ = strconv.ParseBool(s)`: the error is
discarded and the `false` value Go returns alongside the error is kept. -/
def parseBoolDiscard (s : String) : Bool :=
  match goParseBool s with
  | .ok b => b
  | .error _ => false

/-- Model of `strings.Replace(file, " ", "\\ ", -1)` on the character list:
every space is replaced by backslash-space. -/
def replaceSpaces : List Char → List Char
  | [] => []
  | c :: rest =>
    if c = ' ' then '\\' :: ' ' :: replaceSpaces rest
    else c :: replaceSpaces rest

/-- `strings.Replace(s, " ", "\\ ", -1)` as used at src/main.go:153. -/
def escapeSpaces (s : String) : String :=
  ⟨replaceSpaces s.data⟩

/-- Split a character list at every `/` (the unix path separator). -/
def splitSlash : List Char → List (List Char)
  | [] => [[]]
  | c :: rest =>
    match splitSlash rest with
    | [] => [[c]]
    | g :: gs => if c = '/' then [] :: g :: gs else (c :: g) :: gs

/-- One step of Go `path.Clean`'s element processing: empty and `.` elements
are dropped, `..` pops the last real element (or is kept at the head of a
relative path, or dropped at the root of an absolute path), and any other
element is appended. -/
def cleanStep (rooted : Bool) (stack : List (List Char)) (elem : List Char) :
    List (List Char) :=
  if elem = [] ∨ elem = ['.'] then stack
  else if elem = ['.', '.'] then
    if stack ≠ [] ∧ stack.getLast? ≠ some ['.', '.'] then stack.dropLast
    else if rooted then stack
    else stack ++ [['.', '.']]
  else stack ++ [elem]

/-- Join path elements back with `/`. -/
def joinSlash : List (List Char) → List Char
  | [] => []
  | [g] => g
  | g :: gs => g ++ '/' :: joinSlash gs

/-- Model of Go `path.Clean` for unix separators (the element-stack algorithm
equivalent to Go's lazybuf implementation): `""` cleans to `"."`, repeated
separators and `.` elements disappear, `..` cancels a preceding element. -/
def goPathClean (path : String) : String :=
  if path.data = [] then "."
  else
    let rooted := path.data.head? = some '/'
    let elems := (splitSlash path.data).foldl (cleanStep rooted) []
    let out := joinSlash elems
    if rooted then ⟨'/' :: out⟩
    else if out = [] then "." else ⟨out⟩

/-- Model of Go `filepath.Dir` (unix): everything up to and including the
last separator, then Clean; a path without a separator has directory `"."`. -/
def goDir (path : String) : String :=
  goPathClean ⟨(path.data.reverse.dropWhile (fun c => c ≠ '/')).reverse⟩

/-- Model of Go `filepath.Base` (unix): trailing separators are stripped,
then the part after the last separator is returned; `""` gives `"."` and an
all-separator path gives `"/"`. -/
def goBase (path : String) : String :=
  if path = "" then "."
  else
    let r := path.data.reverse.dropWhile (fun c => c = '/')
    if r = [] then "/"
    else ⟨(r.takeWhile (fun c => c ≠ '/')).reverse⟩

/-- A file or folder object as reported by the remote Drive API. -/
structure DriveFile where
  id : String
  name : String
deriving Repr, DecidableEq

/-- One remote Drive API call issued by the program. -/
inductive ApiCall where
  | listQuery (q : String)
  | createFolder (name parent : String)
  | createFile (name mimeType parent : String)
  | updateFile (id name mimeType parent : String)
deriving Repr, DecidableEq

/-- The result of `os.Lstat` that the program inspects. -/
structure GoFileInfo where
  isDir : Bool
deriving Repr, DecidableEq

/-- The environment: responses of the remote Drive API, the local
filesystem, and the external credential machinery.  All remote calls are
modelled as succeeding with the environment's response (every remote failure
is uniformly fatal in the program and no claim concerns it). -/
structure Env where
  glob : String → Except String (List String)
  listResult : String → List DriveFile
  createFolderId : String → String → String
  createFileId : String → String → String → String
  updateResultId : String → String
  lstat : String → Option GoFileInfo
  openOk : String → Bool
  decodeBase64 : String → Except String String
  jwtConfigFromJSON : String → Except String Unit
  newService : Except String Unit

/-- The query string built by `findFileByName` (src/main.go:222) via
`fmt.Sprintf("name = '%s' and '%s' in parents and trashed = false", ...)`. -/
def findQuery (name parentFolderID : String) : String :=
  "name = '" ++ name ++ "' and '" ++ parentFolderID ++ "' in parents and trashed = false"

/-- `findFileByName` (src/main.go:221-231): one list call with the
interpolated query; the first returned file, if any, is the result. -/
def findFileByName (env : Env) (name parentFolderID : String) :
    Option DriveFile × List ApiCall :=
  ((env.listResult (findQuery name parentFolderID)).head?,
   [ApiCall.listQuery (findQuery name parentFolderID)])

/-- `createDriveDirectory` (src/main.go:198-219): look up a folder called
`folderName` under `parentFolderID`; reuse its id if found, otherwise create
one folder with that name and parent and return the new id. -/
def createDriveDirectory (env : Env) (parentFolderID folderName : String) :
    String × List ApiCall :=
  match findFileByName env folderName parentFolderID with
  | (some folder, calls) => (folder.id, calls)
  | (none, calls) =>
      (env.createFolderId folderName parentFolderID,
       calls ++ [ApiCall.createFolder folderName parentFolderID])

/-- `uploadToDrive` (src/main.go:43-79): lstat the path, skip directories
with an empty link, open the file, then update the existing Drive file if
one was passed in and create a new one otherwise; the returned link
interpolates the resulting id into the viewer URL template. -/
def uploadToDrive (env : Env) (filename folderId : String)
    (driveFile : Option DriveFile) (name mimeType : String) :
    Except String (String × List ApiCall) :=
  match env.lstat filename with
  | none => .error ("lstat of file with filename: " ++ filename ++ " failed")
  | some fi =>
    if fi.isDir then .ok ("", [])
    else if env.openOk filename = false then
      .error ("opening file with filename: " ++ filename ++ " failed")
    else
      match driveFile with
      | some df =>
          .ok ("https://drive.google.com/file/d/" ++ env.updateResultId df.id ++ "/view",
               [ApiCall.updateFile df.id name mimeType folderId])
      | none =>
          .ok ("https://drive.google.com/file/d/" ++
                 env.createFileId name mimeType folderId ++ "/view",
               [ApiCall.createFile name mimeType folderId])

/-- The raw action inputs read via `githubactions.GetInput`. -/
structure Inputs where
  filename : String
  overwrite : String
  name : String
  folderId : String
  mimeType : String
  useCompleteSourceFilenameAsName : String
  mirrorDirectoryStructure : String
  namePrefix : String
  credentials : String
deriving Repr, DecidableEq

/-- The configuration resolved by `main` before the upload loop. -/
structure Config where
  files : List String
  overwriteFlag : Bool
  name : String
  folderId : String
  mimeType : String
  useCompleteSourceNameFlag : Bool
  mirrorDirectoryStructureFlag : Bool
  namePrefix : String
deriving Repr, DecidableEq

/-- The fatal message emitted by `missingInput` (src/main.go:233-235). -/
def missingInputMsg (inputName : String) : String :=
  "Input " ++ inputName ++ " is missing or empty"

/-- The configuration phase of `main` (src/main.go:82-148), in source order:
filename check, glob expansion (error, then empty-match check), overwrite
parsing (with the empty-input special case), name, folderId check, mimeType,
the two optional flags, namePrefix, credentials check, base64 decode, JWT
config, Drive service creation.  Every `githubactions.Fatalf` becomes an
`error` result. -/
def configPhase (env : Env) (inputs : Inputs) : Except String Config :=
  if inputs.filename = "" then .error (missingInputMsg "filename")
  else
    match env.glob inputs.filename with
    | .error e => .error ("Invalid filename pattern: " ++ e)
    | .ok files =>
      if files.length = 0 then .error ("No file found! pattern: " ++ inputs.filename)
      else
        let overwriteFlag :=
          if inputs.overwrite = "" then false else parseBoolDiscard inputs.overwrite
        if inputs.folderId = "" then .error (missingInputMsg "folderId")
        else
          let useCompleteSourceNameFlag :=
            parseBoolDiscard inputs.useCompleteSourceFilenameAsName
          let mirrorDirectoryStructureFlag :=
            parseBoolDiscard inputs.mirrorDirectoryStructure
          if inputs.credentials = "" then .error (missingInputMsg "credentials")
          else
            match env.decodeBase64 inputs.credentials with
            | .error e => .error ("Failed to decode credentials: " ++ e)
            | .ok creds =>
              match env.jwtConfigFromJSON creds with
              | .error e => .error ("Failed to create JWT config: " ++ e)
              | .ok _ =>
                match env.newService with
                | .error e => .error ("Failed to create Drive service client: " ++ e)
                | .ok _ =>
                  .ok { files := files
                        overwriteFlag := overwriteFlag
                        name := inputs.name
                        folderId := inputs.folderId
                        mimeType := inputs.mimeType
                        useCompleteSourceNameFlag := useCompleteSourceNameFlag
                        mirrorDirectoryStructureFlag := mirrorDirectoryStructureFlag
                        namePrefix := inputs.namePrefix }

/-- The per-file destination-name computation of `main` (src/main.go:166-179):
the complete source path if that flag is set, else prefix + base name, else
the explicit name, else the base name. -/
def uploadedFileName (cfg : Config) (file : String) : String :=
  if cfg.useCompleteSourceNameFlag then file
  else
    let baseFileName := goBase file
    if cfg.namePrefix ≠ "" then cfg.namePrefix ++ baseFileName
    else if cfg.name ≠ "" then cfg.name
    else baseFileName

/-- The calls issued by the directory-mirroring step of the loop
(src/main.go:156-164): when the flag is set and the escaped path's directory
is not `.`, the calls of `createDriveDirectory` on the whole directory
string, and nothing otherwise. -/
def mirrorTrace (env : Env) (cfg : Config) (file : String) : List ApiCall :=
  if cfg.mirrorDirectoryStructureFlag then
    if goDir (escapeSpaces file) ≠ "." then
      (createDriveDirectory env cfg.folderId (goDir (escapeSpaces file))).2
    else []
  else []

/-- One iteration of the upload loop of `main` (src/main.go:151-195): escape
spaces, optionally mirror the directory (the id returned by
`createDriveDirectory` is discarded, as by `_, err =` at src/main.go:159),
resolve the name, run the existence check against the root folder, and call
`uploadToDrive` with the root folder id. -/
def processFile (env : Env) (cfg : Config) (file : String) :
    Except String String × List ApiCall :=
  let mirrorCalls := mirrorTrace env cfg file
  let found := findFileByName env (uploadedFileName cfg file) cfg.folderId
  match uploadToDrive env file cfg.folderId found.1 (uploadedFileName cfg file) cfg.mimeType with
  | .error e => (.error e, mirrorCalls ++ found.2)
  | .ok (link, upCalls) => (.ok link, mirrorCalls ++ found.2 ++ upCalls)

/-- The upload loop of `main`: files are processed in order; the first error
is fatal and stops the run, otherwise the per-file links are collected and
the call traces concatenated. -/
def runFiles (env : Env) (cfg : Config) : List String → Except String (List String) × List ApiCall
  | [] => (.ok [], [])
  | file :: rest =>
    match processFile env cfg file with
    | (.error e, calls) => (.error e, calls)
    | (.ok link, calls) =>
      match runFiles env cfg rest with
      | (r, restCalls) => (r.map (fun links => link :: links), calls ++ restCalls)

/-- The whole program: the configuration phase followed by the upload loop;
a fatal configuration error terminates the process before any remote call. -/
def run (env : Env) (inputs : Inputs) : Except String (List String) × List ApiCall :=
  match configPhase env inputs with
  | .error e => (.error e, [])
  | .ok cfg => runFiles env cfg cfg.files

/-- A concrete environment: the remote folder is empty (every list query
returns no match), every local path is a regular file, and fresh ids record
the creating call's arguments. -/
def emptyDriveEnv : Env where
  glob := fun _ => .ok ["a/b/file.txt"]
  listResult := fun _ => []
  createFolderId := fun name parent => "created:" ++ name ++ ":" ++ parent
  createFileId := fun _ _ _ => "newfileid"
  updateResultId := fun id => id
  lstat := fun _ => some ⟨false⟩
  openOk := fun _ => true
  decodeBase64 := fun _ => .ok ""
  jwtConfigFromJSON := fun _ => .ok ()
  newService := .ok ()

/-- A concrete environment in which every local path is a directory. -/
def dirEnv : Env :=
  { emptyDriveEnv with lstat := fun _ => some ⟨true⟩ }

/-- A concrete environment in which every list query finds one existing
remote item. -/
def existingFileEnv : Env :=
  { emptyDriveEnv with listResult := fun _ => [⟨"existing1", "file.txt"⟩] }

/-- A concrete configuration with directory mirroring enabled. -/
def mirrorCfg : Config where
  files := ["a/b/file.txt"]
  overwriteFlag := false
  name := ""
  folderId := "root"
  mimeType := ""
  useCompleteSourceNameFlag := false
  mirrorDirectoryStructureFlag := true
  namePrefix := ""

/-- A concrete configuration with every optional feature disabled. -/
def plainCfg : Config where
  files := ["somedir"]
  overwriteFlag := false
  name := ""
  folderId := "root"
  mimeType := ""
  useCompleteSourceNameFlag := false
  mirrorDirectoryStructureFlag := false
  namePrefix := ""

/-- A concrete configuration with the complete-source-path flag enabled
together with a name prefix and an explicit name. -/
def completeNameCfg : Config where
  files := ["dir/a b.txt"]
  overwriteFlag := false
  name := "explicit"
  folderId := "root"
  mimeType := ""
  useCompleteSourceNameFlag := true
  mirrorDirectoryStructureFlag := false
  namePrefix := "p-"

/-- A concrete configuration with a name prefix and an explicit name but the
complete-source-path flag disabled. -/
def prefixCfg : Config where
  files := ["report.csv"]
  overwriteFlag := false
  name := "explicit"
  folderId := "root"
  mimeType := ""
  useCompleteSourceNameFlag := false
  mirrorDirectoryStructureFlag := false
  namePrefix := "p-"

/-- The calls issued by `createDriveDirectory`: exactly one list query for
the folder name under the parent, followed by exactly one folder create when
and only when the query returned no match. -/
theorem createDriveDirectory_calls (env : Env) (p d : String) :
    (createDriveDirectory env p d).2 =
      ApiCall.listQuery (findQuery d p) ::
        (if env.listResult (findQuery d p) = [] then [ApiCall.createFolder d p] else []) := by
  unfold createDriveDirectory findFileByName
  cases h : env.listResult (findQuery d p) <;> simp [h]

/-- C1: the claim that directory mirroring proceeds segment-by-segment is
false.  For the matched file `a/b/file.txt` under root folder `root` with an
empty remote folder, the program never looks up or creates a folder named
after the first segment `a`; instead it creates a single folder literally
named `a/b` with `root` as its parent. -/
theorem c1_counterexample :
    ApiCall.listQuery (findQuery "a" "root") ∉
      (processFile emptyDriveEnv mirrorCfg "a/b/file.txt").2 ∧
    ApiCall.createFolder "a" "root" ∉
      (processFile emptyDriveEnv mirrorCfg "a/b/file.txt").2 ∧
    ApiCall.createFolder "a/b" "root" ∈
      (processFile emptyDriveEnv mirrorCfg "a/b/file.txt").2 := by
  decide

/-- C1 (amended): when mirroring is enabled and the matched file's escaped
directory is not `.`, the mirroring phase treats the entire directory path as
one folder name: it issues exactly one lookup for a folder named the whole
(space-escaped) directory string under the root folder, reuses it when found
(zero creates), and otherwise issues exactly one create of a folder carrying
the whole directory string as its name with the root folder as parent; the
rest of the per-file processing follows these calls. -/
theorem c1_mirror_whole_path (env : Env) (cfg : Config) (file : String)
    (hm : cfg.mirrorDirectoryStructureFlag = true)
    (hd : goDir (escapeSpaces file) ≠ ".") :
    (createDriveDirectory env cfg.folderId (goDir (escapeSpaces file))).2 =
      ApiCall.listQuery (findQuery (goDir (escapeSpaces file)) cfg.folderId) ::
        (if env.listResult (findQuery (goDir (escapeSpaces file)) cfg.folderId) = []
         then [ApiCall.createFolder (goDir (escapeSpaces file)) cfg.folderId]
         else []) ∧
    ∃ rest, (processFile env cfg file).2 =
      (createDriveDirectory env cfg.folderId (goDir (escapeSpaces file))).2 ++ rest := by
  constructor
  · exact createDriveDirectory_calls env cfg.folderId _
  · unfold processFile mirrorTrace
    simp only [hm, if_true, hd, ite_not, if_neg, ne_eq, not_false_eq_true, ite_true]
    split
    · exact ⟨_, rfl⟩
    · exact ⟨_, List.append_assoc _ _ _⟩

/-- C1 witness: the amended mirroring statement instantiated at the concrete
run of `a/b/file.txt` against an empty remote folder. -/
theorem c1_mirror_whole_path_witness :
    mirrorCfg.mirrorDirectoryStructureFlag = true ∧
    goDir (escapeSpaces "a/b/file.txt") ≠ "." ∧
    ∃ rest, (processFile emptyDriveEnv mirrorCfg "a/b/file.txt").2 =
      (createDriveDirectory emptyDriveEnv mirrorCfg.folderId
        (goDir (escapeSpaces "a/b/file.txt"))).2 ++ rest :=
  ⟨by decide, by decide,
   (c1_mirror_whole_path emptyDriveEnv mirrorCfg "a/b/file.txt" (by decide) (by decide)).2⟩

/-- C2: the id of the mirrored folder is discarded by `main` (`_, err =` at
src/main.go:159).  In the concrete mirrored run of `a/b/file.txt` against an
empty remote folder, a folder `a/b` is created and given id
`created:a/b:root`, yet both the existence check and the file create use the
root folder id `root`; no call ever mentions the freshly mirrored folder's
id, so the file is uploaded to the root folder, not into the mirrored
folder. -/
theorem c2_upload_ignores_mirrored_folder :
    (processFile emptyDriveEnv mirrorCfg "a/b/file.txt").2 =
      [ApiCall.listQuery (findQuery "a/b" "root"),
       ApiCall.createFolder "a/b" "root",
       ApiCall.listQuery (findQuery "file.txt" "root"),
       ApiCall.createFile "file.txt" "" "root"] ∧
    emptyDriveEnv.createFolderId "a/b" "root" = "created:a/b:root" ∧
    (∀ c ∈ (processFile emptyDriveEnv mirrorCfg "a/b/file.txt").2,
      c ≠ ApiCall.createFile "file.txt" "" "created:a/b:root" ∧
      c ≠ ApiCall.listQuery (findQuery "file.txt" "created:a/b:root")) := by
  decide

/-- C3: the claim that the complete-source-path name carries escaped spaces
is false.  For the matched path `dir/a b.txt` with the flag enabled (and a
prefix and explicit name also configured), the resolved destination name is
the raw path `dir/a b.txt`, not the space-escaped `dir/a\ b.txt` (which is
what `escapeSpaces` would yield): src/main.go:169 assigns `file`, not
`escapedName`. -/
theorem c3_counterexample :
    uploadedFileName completeNameCfg "dir/a b.txt" = "dir/a b.txt" ∧
    uploadedFileName completeNameCfg "dir/a b.txt" ≠ "dir/a\\ b.txt" ∧
    escapeSpaces "dir/a b.txt" = "dir/a\\ b.txt" := by
  decide

/-- C3 (amended): when the complete-source-path flag is enabled, the resolved
destination name is the full glob-expanded local path exactly as matched,
with no space escaping (the escaped variant is used only to compute the
directory for mirroring); the prefix, explicit-name and base-name rules are
skipped. -/
theorem c3_complete_source_name (cfg : Config) (file : String)
    (h : cfg.useCompleteSourceNameFlag = true) :
    uploadedFileName cfg file = file := by
  simp [uploadedFileName, h]

/-- C3 witness: the amended statement instantiated at the concrete
configuration with the flag, a prefix and an explicit name all set. -/
theorem c3_complete_source_name_witness :
    completeNameCfg.useCompleteSourceNameFlag = true ∧
    uploadedFileName completeNameCfg "dir/a b.txt" = "dir/a b.txt" :=
  ⟨by decide, c3_complete_source_name completeNameCfg "dir/a b.txt" (by decide)⟩

/-- Naming rule 1 of the spec: the complete-source-path flag is enabled. -/
def nameRule1 (cfg : Config) : Prop :=
  cfg.useCompleteSourceNameFlag = true

/-- Naming rule 2 of the spec: no complete-source-path flag, a name prefix
is configured. -/
def nameRule2 (cfg : Config) : Prop :=
  cfg.useCompleteSourceNameFlag = false ∧ cfg.namePrefix ≠ ""

/-- Naming rule 3 of the spec: no flag, no prefix, an explicit destination
name is configured. -/
def nameRule3 (cfg : Config) : Prop :=
  cfg.useCompleteSourceNameFlag = false ∧ cfg.namePrefix = "" ∧ cfg.name ≠ ""

/-- Naming rule 4 of the spec: no flag, no prefix, no explicit name. -/
def nameRule4 (cfg : Config) : Prop :=
  cfg.useCompleteSourceNameFlag = false ∧ cfg.namePrefix = "" ∧ cfg.name = ""

/-- C4: name resolution is a strict first-match-wins precedence.  For every
configuration exactly one of the four naming rules applies (the disjunction
holds and earlier rules exclude later ones), and the resolved name is the
applying rule's output: the full path under rule 1, prefix + base name under
rule 2 (regardless of the explicit name), the explicit name under rule 3
applied identically to every file, and the unchanged base name under
rule 4. -/
theorem c4_name_precedence (cfg : Config) (file : String) :
    (nameRule1 cfg ∨ nameRule2 cfg ∨ nameRule3 cfg ∨ nameRule4 cfg) ∧
    (nameRule1 cfg → ¬ nameRule2 cfg ∧ ¬ nameRule3 cfg ∧ ¬ nameRule4 cfg) ∧
    (nameRule2 cfg → ¬ nameRule3 cfg ∧ ¬ nameRule4 cfg) ∧
    (nameRule3 cfg → ¬ nameRule4 cfg) ∧
    (nameRule1 cfg → uploadedFileName cfg file = file) ∧
    (nameRule2 cfg → uploadedFileName cfg file = cfg.namePrefix ++ goBase file) ∧
    (nameRule3 cfg → uploadedFileName cfg file = cfg.name) ∧
    (nameRule4 cfg → uploadedFileName cfg file = goBase file) := by
  unfold nameRule1 nameRule2 nameRule3 nameRule4 uploadedFileName
  cases h1 : cfg.useCompleteSourceNameFlag <;>
    by_cases h2 : cfg.namePrefix = "" <;>
    by_cases h3 : cfg.name = "" <;>
    simp [h1, h2, h3]

/-- C4 witness: with the flag disabled, prefix `p-` and explicit name
`explicit` both configured, the base name `report.csv` resolves to
`p-report.csv`, the explicit name notwithstanding. -/
theorem c4_name_precedence_witness :
    nameRule2 prefixCfg ∧ uploadedFileName prefixCfg "report.csv" = "p-report.csv" :=
  ⟨⟨by decide, by decide⟩,
   ((c4_name_precedence prefixCfg "report.csv").2.2.2.2.2.1
      ⟨by decide, by decide⟩).trans (by decide)⟩

/-- A concrete set of well-formed inputs. -/
def okInputs : Inputs where
  filename := "a/b/file.txt"
  overwrite := ""
  name := ""
  folderId := "root"
  mimeType := ""
  useCompleteSourceFilenameAsName := ""
  mirrorDirectoryStructure := ""
  namePrefix := ""
  credentials := "creds"

/-- The loop body never reads the overwrite flag. -/
theorem processFile_overwriteFlag (env : Env) (cfg : Config) (b : Bool) (file : String) :
    processFile env { cfg with overwriteFlag := b } file = processFile env cfg file :=
  rfl

/-- The whole upload loop never reads the overwrite flag. -/
theorem runFiles_overwriteFlag (env : Env) (cfg : Config) (b : Bool) (fs : List String) :
    runFiles env { cfg with overwriteFlag := b } fs = runFiles env cfg fs := by
  induction fs with
  | nil => rfl
  | cons f rest ih => simp only [runFiles, processFile_overwriteFlag, ih]

/-- Changing the overwrite input only changes the parsed overwrite flag of
the resolved configuration; every check, message and other field is
untouched. -/
theorem configPhase_overwrite (env : Env) (inputs : Inputs) (o : String) :
    configPhase env { inputs with overwrite := o } =
      Except.map
        (fun cfg =>
          { cfg with overwriteFlag := if o = "" then false else parseBoolDiscard o })
        (configPhase env inputs) := by
  unfold configPhase
  by_cases h1 : inputs.filename = ""
  · simp [h1, Except.map]
  · simp only [h1, if_false, ite_false]
    cases hg : env.glob inputs.filename with
    | error e => simp [Except.map]
    | ok files =>
      by_cases h2 : files.length = 0
      · simp [h2, Except.map]
      · simp only [h2, if_false, ite_false]
        by_cases h3 : inputs.folderId = ""
        · simp [h3, Except.map]
        · simp only [h3, if_false, ite_false]
          by_cases h4 : inputs.credentials = ""
          · simp [h4, Except.map]
          · simp only [h4, if_false, ite_false]
            cases hd : env.decodeBase64 inputs.credentials with
            | error e => simp [hd, Except.map]
            | ok creds =>
              cases hj : env.jwtConfigFromJSON creds with
              | error e => simp [hd, hj, Except.map]
              | ok u =>
                cases hs : env.newService with
                | error e => simp [hd, hj, hs, Except.map]
                | ok v => simp [hd, hj, hs, Except.map]

/-- The mirroring step only ever issues list queries and folder creates. -/
theorem mirrorTrace_no_file_calls (env : Env) (cfg : Config) (file : String) :
    ∀ c ∈ mirrorTrace env cfg file,
      (∀ n m p, c ≠ ApiCall.createFile n m p) ∧
      (∀ i n m p, c ≠ ApiCall.updateFile i n m p) := by
  intro c hc
  unfold mirrorTrace at hc
  split at hc
  · split at hc
    · rw [createDriveDirectory_calls] at hc
      rcases List.mem_cons.mp hc with h | h
      · subst h
        exact ⟨fun n m p => by simp, fun i n m p => by simp⟩
      · split at h
        · rw [List.mem_singleton] at h
          subst h
          exact ⟨fun n m p => by simp, fun i n m p => by simp⟩
        · simp at h
    · simp at hc
  · simp at hc

/-- The full shape of one loop iteration for a regular, openable file: the
mirroring calls, then the existence-check list query for the resolved name
under the root folder, then exactly one update (on the found item's id) when
the check found a match and exactly one create otherwise. -/
theorem processFile_eq (env : Env) (cfg : Config) (file : String) (fi : GoFileInfo)
    (hl : env.lstat file = some fi) (hdir : fi.isDir = false)
    (hopen : env.openOk file = true) :
    processFile env cfg file =
      match (env.listResult (findQuery (uploadedFileName cfg file) cfg.folderId)).head? with
      | some df =>
          (.ok ("https://drive.google.com/file/d/" ++ env.updateResultId df.id ++ "/view"),
           mirrorTrace env cfg file ++
             [ApiCall.listQuery (findQuery (uploadedFileName cfg file) cfg.folderId)] ++
             [ApiCall.updateFile df.id (uploadedFileName cfg file) cfg.mimeType cfg.folderId])
      | none =>
          (.ok ("https://drive.google.com/file/d/" ++
                  env.createFileId (uploadedFileName cfg file) cfg.mimeType cfg.folderId ++
                  "/view"),
           mirrorTrace env cfg file ++
             [ApiCall.listQuery (findQuery (uploadedFileName cfg file) cfg.folderId)] ++
             [ApiCall.createFile (uploadedFileName cfg file) cfg.mimeType cfg.folderId]) := by
  unfold processFile uploadToDrive findFileByName
  rw [hl]
  cases h : (env.listResult (findQuery (uploadedFileName cfg file) cfg.folderId)).head? with
  | some df => simp [hdir, hopen]
  | none => simp [hdir, hopen]

/-- C5: the create-versus-update decision is driven purely by the
existence-check result and is independent of the overwrite input.  Varying
only the overwrite input between two runs leaves the issued call trace
identical, the loop body never reads the parsed overwrite flag, and for a
regular openable file: a found item causes exactly an update call carrying
that item's id, and no found item causes exactly a create call with the
destination name, MIME type and parent folder id. -/
theorem c5_overwrite_decoupled (env : Env) (inputs : Inputs) (o₁ o₂ : String)
    (cfg : Config) (file : String) (fi : GoFileInfo)
    (hl : env.lstat file = some fi) (hdir : fi.isDir = false)
    (hopen : env.openOk file = true) :
    (run env { inputs with overwrite := o₁ }).2 =
      (run env { inputs with overwrite := o₂ }).2 ∧
    (∀ b, processFile env { cfg with overwriteFlag := b } file =
      processFile env cfg file) ∧
    (match (findFileByName env (uploadedFileName cfg file) cfg.folderId).1 with
     | some df =>
        ApiCall.updateFile df.id (uploadedFileName cfg file) cfg.mimeType cfg.folderId ∈
          (processFile env cfg file).2 ∧
        ∀ nm mt p, ApiCall.createFile nm mt p ∉ (processFile env cfg file).2
     | none =>
        ApiCall.createFile (uploadedFileName cfg file) cfg.mimeType cfg.folderId ∈
          (processFile env cfg file).2 ∧
        ∀ i nm mt p, ApiCall.updateFile i nm mt p ∉ (processFile env cfg file).2) := by
  refine ⟨?_, fun b => processFile_overwriteFlag env cfg b file, ?_⟩
  · unfold run
    rw [configPhase_overwrite env inputs o₁, configPhase_overwrite env inputs o₂]
    cases configPhase env inputs with
    | error e => rfl
    | ok c =>
      exact congrArg Prod.snd
        ((runFiles_overwriteFlag env c
            (if o₁ = "" then false else parseBoolDiscard o₁) c.files).trans
          (runFiles_overwriteFlag env c
            (if o₂ = "" then false else parseBoolDiscard o₂) c.files).symm)
  · have hf : (findFileByName env (uploadedFileName cfg file) cfg.folderId).1
        = (env.listResult (findQuery (uploadedFileName cfg file) cfg.folderId)).head? := rfl
    rw [hf]
    have hp := processFile_eq env cfg file fi hl hdir hopen
    cases h : (env.listResult (findQuery (uploadedFileName cfg file) cfg.folderId)).head? with
    | some df =>
      simp only [h] at hp
      constructor
      · rw [hp]
        simp
      · intro nm mt p hmem
        rw [hp] at hmem
        simp only [List.mem_append, List.mem_singleton] at hmem
        rcases hmem with (hm1 | hm2) | hm3
        · exact (mirrorTrace_no_file_calls env cfg file _ hm1).1 nm mt p rfl
        · simp at hm2
        · simp at hm3
    | none =>
      simp only [h] at hp
      constructor
      · rw [hp]
        simp
      · intro i nm mt p hmem
        rw [hp] at hmem
        simp only [List.mem_append, List.mem_singleton] at hmem
        rcases hmem with (hm1 | hm2) | hm3
        · exact (mirrorTrace_no_file_calls env cfg file _ hm1).2 i nm mt p rfl
        · simp at hm2
        · simp at hm3

/-- C5 witness: in the concrete environment holding one same-named remote
item, the processing of `file.txt` issues the update call with the existing
id `existing1`, and no create call appears. -/
theorem c5_overwrite_decoupled_witness :
    ApiCall.updateFile "existing1" "file.txt" "" "root" ∈
      (processFile existingFileEnv plainCfg "file.txt").2 ∧
    ApiCall.createFile "file.txt" "" "root" ∉
      (processFile existingFileEnv plainCfg "file.txt").2 := by
  have h := (c5_overwrite_decoupled existingFileEnv okInputs "true" "whatever"
      plainCfg "file.txt" ⟨false⟩ rfl rfl rfl).2.2
  exact ⟨h.1, h.2 "file.txt" "" "root"⟩

/-- C6: the claim that a matched directory path causes zero remote API calls
is false.  In the concrete environment in which `somedir` is a directory,
its processing still issues the existence-check list query (src/main.go:182
runs before the directory test inside `uploadToDrive`), so the call trace
for that path is nonempty. -/
theorem c6_counterexample :
    dirEnv.lstat "somedir" = some ⟨true⟩ ∧
    (processFile dirEnv plainCfg "somedir").2 =
      [ApiCall.listQuery (findQuery "somedir" "root")] ∧
    (processFile dirEnv plainCfg "somedir").2 ≠ [] := by
  decide

/-- C6 (amended): a matched path that is a directory is skipped with an
empty link and is not an error, no create or update call is issued for it,
and the loop continues with the remaining files; however the existence-check
list query (and the mirroring calls, when enabled) are still issued for that
path before the skip. -/
theorem c6_directory_skipped (env : Env) (cfg : Config) (file : String)
    (rest : List String) (fi : GoFileInfo)
    (hl : env.lstat file = some fi) (hd : fi.isDir = true) :
    (processFile env cfg file).1 = .ok "" ∧
    (processFile env cfg file).2 =
      mirrorTrace env cfg file ++
        [ApiCall.listQuery (findQuery (uploadedFileName cfg file) cfg.folderId)] ∧
    (∀ nm mt p, ApiCall.createFile nm mt p ∉ (processFile env cfg file).2) ∧
    (∀ i nm mt p, ApiCall.updateFile i nm mt p ∉ (processFile env cfg file).2) ∧
    runFiles env cfg (file :: rest) =
      ((runFiles env cfg rest).1.map (fun links => "" :: links),
       (processFile env cfg file).2 ++ (runFiles env cfg rest).2) := by
  have hp : processFile env cfg file =
      (.ok "", mirrorTrace env cfg file ++
        [ApiCall.listQuery (findQuery (uploadedFileName cfg file) cfg.folderId)]) := by
    unfold processFile uploadToDrive findFileByName
    rw [hl]
    simp [hd]
  refine ⟨by rw [hp], by rw [hp], ?_, ?_, ?_⟩
  · intro nm mt p hmem
    rw [hp] at hmem
    simp only [List.mem_append, List.mem_singleton] at hmem
    rcases hmem with hm1 | hm2
    · exact (mirrorTrace_no_file_calls env cfg file _ hm1).1 nm mt p rfl
    · simp at hm2
  · intro i nm mt p hmem
    rw [hp] at hmem
    simp only [List.mem_append, List.mem_singleton] at hmem
    rcases hmem with hm1 | hm2
    · exact (mirrorTrace_no_file_calls env cfg file _ hm1).2 i nm mt p rfl
    · simp at hm2
  · show runFiles env cfg (file :: rest) = _
    simp only [runFiles]
    rw [hp]

/-- C6 witness: concrete instance of the amended statement, including the
loop continuing past the skipped directory. -/
theorem c6_directory_skipped_witness :
    (processFile dirEnv plainCfg "somedir").1 = .ok "" ∧
    runFiles dirEnv plainCfg ["somedir"] =
      ((runFiles dirEnv plainCfg []).1.map (fun links => "" :: links),
       (processFile dirEnv plainCfg "somedir").2 ++ (runFiles dirEnv plainCfg []).2) :=
  ⟨(c6_directory_skipped dirEnv plainCfg "somedir" [] ⟨true⟩ rfl rfl).1,
   (c6_directory_skipped dirEnv plainCfg "somedir" [] ⟨true⟩ rfl rfl).2.2.2.2⟩

/-- A concrete environment whose glob expansion matches no files. -/
def noMatchEnv : Env :=
  { emptyDriveEnv with glob := fun _ => .ok [] }

/-- Concrete inputs: a pattern that will match nothing, with folderId and
credentials both empty. -/
def missingFieldsInputs : Inputs where
  filename := "nomatch*"
  overwrite := ""
  name := ""
  folderId := ""
  mimeType := ""
  useCompleteSourceFilenameAsName := ""
  mirrorDirectoryStructure := ""
  namePrefix := ""
  credentials := ""

/-- A fatal configuration error stops the run with an empty call trace. -/
theorem run_config_error (env : Env) (inputs : Inputs) (m : String)
    (h : configPhase env inputs = .error m) : run env inputs = (.error m, []) := by
  unfold run
  rw [h]

/-- An empty filename input fails the very first check. -/
theorem configPhase_no_filename (env : Env) (inputs : Inputs)
    (h : inputs.filename = "") :
    configPhase env inputs = .error (missingInputMsg "filename") := by
  unfold configPhase
  simp [h]

/-- With a nonempty pattern that globs to at least one file, an empty
folderId input fails with the folderId message. -/
theorem configPhase_no_folderId (env : Env) (inputs : Inputs) (files : List String)
    (h1 : inputs.filename ≠ "") (hg : env.glob inputs.filename = .ok files)
    (hf : files ≠ []) (h2 : inputs.folderId = "") :
    configPhase env inputs = .error (missingInputMsg "folderId") := by
  unfold configPhase
  simp [h1, hg, hf, h2]

/-- With a nonempty pattern globbing to at least one file and a nonempty
folderId, an empty credentials input fails with the credentials message. -/
theorem configPhase_no_credentials (env : Env) (inputs : Inputs) (files : List String)
    (h1 : inputs.filename ≠ "") (hg : env.glob inputs.filename = .ok files)
    (hf : files ≠ []) (h2 : inputs.folderId ≠ "") (h3 : inputs.credentials = "") :
    configPhase env inputs = .error (missingInputMsg "credentials") := by
  unfold configPhase
  simp [h1, hg, hf, h2, h3]

/-- C7: the claim that a run missing folderId or credentials always aborts
with a message naming that field is false.  With the pattern `nomatch*`
matching no files and folderId and credentials both empty, the run aborts
with the no-file message, which is not of the missing-input form for any
field name. -/
theorem c7_counterexample :
    missingFieldsInputs.folderId = "" ∧
    missingFieldsInputs.credentials = "" ∧
    run noMatchEnv missingFieldsInputs =
      (.error "No file found! pattern: nomatch*", []) ∧
    ∀ s, "No file found! pattern: nomatch*" ≠ missingInputMsg s := by
  refine ⟨rfl, rfl, rfl, ?_⟩
  intro s h
  have h2 := congrArg (fun t => t.data.head?) h
  exact absurd (Option.some.inj h2) (by decide)

/-- C7 (amended): whenever the filename pattern, the folderId or the
credentials input is empty, the run aborts fatally with an empty call trace
(so before any remote call, with no partial results).  The abort message
names the missing field under the checks that precede it: an empty filename
is always named; an empty folderId is named provided the glob succeeded with
at least one match; empty credentials are named provided additionally the
folderId is nonempty.  (When the glob errors or matches nothing, the abort
message reports that instead of the missing field.) -/
theorem c7_missing_inputs (env : Env) (inputs : Inputs) :
    ((inputs.filename = "" ∨ inputs.folderId = "" ∨ inputs.credentials = "") →
      ∃ m, run env inputs = (.error m, [])) ∧
    (inputs.filename = "" →
      run env inputs = (.error (missingInputMsg "filename"), [])) ∧
    (∀ files, inputs.filename ≠ "" → env.glob inputs.filename = .ok files →
      files ≠ [] → inputs.folderId = "" →
      run env inputs = (.error (missingInputMsg "folderId"), [])) ∧
    (∀ files, inputs.filename ≠ "" → env.glob inputs.filename = .ok files →
      files ≠ [] → inputs.folderId ≠ "" → inputs.credentials = "" →
      run env inputs = (.error (missingInputMsg "credentials"), [])) := by
  refine ⟨?_, ?_, ?_, ?_⟩
  · intro hcase
    by_cases hf : inputs.filename = ""
    · exact ⟨_, run_config_error env inputs _ (configPhase_no_filename env inputs hf)⟩
    · cases hg : env.glob inputs.filename with
      | error e =>
        exact ⟨_, run_config_error env inputs ("Invalid filename pattern: " ++ e)
          (by unfold configPhase; simp [hf, hg])⟩
      | ok files =>
        by_cases hlen : files = []
        · exact ⟨_, run_config_error env inputs
            ("No file found! pattern: " ++ inputs.filename)
            (by unfold configPhase; simp [hf, hg, hlen])⟩
        · by_cases hfid : inputs.folderId = ""
          · exact ⟨_, run_config_error env inputs _
              (configPhase_no_folderId env inputs files hf hg hlen hfid)⟩
          · rcases hcase with h | h | h
            · exact absurd h hf
            · exact absurd h hfid
            · exact ⟨_, run_config_error env inputs _
                (configPhase_no_credentials env inputs files hf hg hlen hfid h)⟩
  · intro hf
    exact run_config_error env inputs _ (configPhase_no_filename env inputs hf)
  · intro files h1 hg hfl h2
    exact run_config_error env inputs _
      (configPhase_no_folderId env inputs files h1 hg hfl h2)
  · intro files h1 hg hfl h2 h3
    exact run_config_error env inputs _
      (configPhase_no_credentials env inputs files h1 hg hfl h2 h3)

/-- C7 witness: a concrete run with an empty folderId (and a pattern that
matches one file) aborts with the folderId message and an empty trace. -/
theorem c7_missing_inputs_witness :
    run emptyDriveEnv { okInputs with folderId := "" } =
      (.error (missingInputMsg "folderId"), []) :=
  (c7_missing_inputs emptyDriveEnv { okInputs with folderId := "" }).2.2.1
    ["a/b/file.txt"] (by decide) rfl (by decide) rfl

/-- C8: a (nonempty) glob pattern that expands to zero matched files aborts
the run fatally with the no-file message carrying the pattern and an empty
call trace (so before any remote call); a glob expansion error is likewise
fatal, with the invalid-pattern message. -/
theorem c8_empty_glob_fatal (env : Env) (inputs : Inputs) (h : inputs.filename ≠ "") :
    (env.glob inputs.filename = .ok [] →
      run env inputs =
        (.error ("No file found! pattern: " ++ inputs.filename), [])) ∧
    (∀ e, env.glob inputs.filename = .error e →
      run env inputs = (.error ("Invalid filename pattern: " ++ e), [])) := by
  constructor
  · intro hg
    exact run_config_error env inputs _ (by unfold configPhase; simp [h, hg])
  · intro e hg
    exact run_config_error env inputs _ (by unfold configPhase; simp [h, hg])

/-- C8 witness: the concrete pattern `nomatch*` matching no files aborts
with the no-file message containing the pattern and issues no calls. -/
theorem c8_empty_glob_fatal_witness :
    run noMatchEnv { okInputs with filename := "nomatch*" } =
      (.error ("No file found! pattern: " ++ "nomatch*"), []) :=
  (c8_empty_glob_fatal noMatchEnv { okInputs with filename := "nomatch*" }
    (by decide)).1 rfl

/-- Changing the useCompleteSourceFilenameAsName input only changes the
corresponding parsed flag of the resolved configuration. -/
theorem configPhase_useComplete (env : Env) (inputs : Inputs) (s : String) :
    configPhase env { inputs with useCompleteSourceFilenameAsName := s } =
      Except.map
        (fun cfg => { cfg with useCompleteSourceNameFlag := parseBoolDiscard s })
        (configPhase env inputs) := by
  unfold configPhase
  by_cases h1 : inputs.filename = ""
  · simp [h1, Except.map]
  · simp only [h1, if_false, ite_false]
    cases hg : env.glob inputs.filename with
    | error e => simp [Except.map]
    | ok files =>
      by_cases h2 : files.length = 0
      · simp [h2, Except.map]
      · simp only [h2, if_false, ite_false]
        by_cases h3 : inputs.folderId = ""
        · simp [h3, Except.map]
        · simp only [h3, if_false, ite_false]
          by_cases h4 : inputs.credentials = ""
          · simp [h4, Except.map]
          · simp only [h4, if_false, ite_false]
            cases hd : env.decodeBase64 inputs.credentials with
            | error e => simp [hd, Except.map]
            | ok creds =>
              cases hj : env.jwtConfigFromJSON creds with
              | error e => simp [hd, hj, Except.map]
              | ok u =>
                cases hs : env.newService with
                | error e => simp [hd, hj, hs, Except.map]
                | ok v => simp [hd, hj, hs, Except.map]

/-- Changing the mirrorDirectoryStructure input only changes the
corresponding parsed flag of the resolved configuration. -/
theorem configPhase_mirror (env : Env) (inputs : Inputs) (s : String) :
    configPhase env { inputs with mirrorDirectoryStructure := s } =
      Except.map
        (fun cfg => { cfg with mirrorDirectoryStructureFlag := parseBoolDiscard s })
        (configPhase env inputs) := by
  unfold configPhase
  by_cases h1 : inputs.filename = ""
  · simp [h1, Except.map]
  · simp only [h1, if_false, ite_false]
    cases hg : env.glob inputs.filename with
    | error e => simp [Except.map]
    | ok files =>
      by_cases h2 : files.length = 0
      · simp [h2, Except.map]
      · simp only [h2, if_false, ite_false]
        by_cases h3 : inputs.folderId = ""
        · simp [h3, Except.map]
        · simp only [h3, if_false, ite_false]
          by_cases h4 : inputs.credentials = ""
          · simp [h4, Except.map]
          · simp only [h4, if_false, ite_false]
            cases hd : env.decodeBase64 inputs.credentials with
            | error e => simp [hd, Except.map]
            | ok creds =>
              cases hj : env.jwtConfigFromJSON creds with
              | error e => simp [hd, hj, Except.map]
              | ok u =>
                cases hs : env.newService with
                | error e => simp [hd, hj, hs, Except.map]
                | ok v => simp [hd, hj, hs, Except.map]

/-- C9: a nonempty boolean-string input that is not one of the twelve Go
boolean literals has its parse error silently discarded: the parsed flag is
`false`, and substituting the invalid string for any of the three boolean
inputs (overwrite, useCompleteSourceFilenameAsName,
mirrorDirectoryStructure) yields a run identical to the run with an
explicit `"false"` — in particular the run is never aborted by the invalid
value. -/
theorem c9_invalid_bool_inputs (env : Env) (inputs : Inputs) (s : String)
    (hne : s ≠ "") (hp : goParseBool s = .error ()) :
    parseBoolDiscard s = false ∧
    parseBoolDiscard s = parseBoolDiscard "false" ∧
    run env { inputs with overwrite := s } =
      run env { inputs with overwrite := "false" } ∧
    run env { inputs with useCompleteSourceFilenameAsName := s } =
      run env { inputs with useCompleteSourceFilenameAsName := "false" } ∧
    run env { inputs with mirrorDirectoryStructure := s } =
      run env { inputs with mirrorDirectoryStructure := "false" } := by
  have hpd : parseBoolDiscard s = false := by
    unfold parseBoolDiscard
    rw [hp]
  have hfd : parseBoolDiscard "false" = false := by decide
  refine ⟨hpd, hpd.trans hfd.symm, ?_, ?_, ?_⟩
  · unfold run
    rw [configPhase_overwrite env inputs s, configPhase_overwrite env inputs "false"]
    rw [show (if s = "" then false else parseBoolDiscard s) =
          (if ("false" : String) = "" then false else parseBoolDiscard "false") by
        simp [hne, hpd, hfd]]
  · unfold run
    rw [configPhase_useComplete env inputs s, configPhase_useComplete env inputs "false"]
    rw [show parseBoolDiscard s = parseBoolDiscard "false" from hpd.trans hfd.symm]
  · unfold run
    rw [configPhase_mirror env inputs s, configPhase_mirror env inputs "false"]
    rw [show parseBoolDiscard s = parseBoolDiscard "false" from hpd.trans hfd.symm]

/-- C9 witness: the invalid boolean string `yes` behaves exactly like an
explicit `false` for the mirroring flag in a concrete run. -/
theorem c9_invalid_bool_inputs_witness :
    goParseBool "yes" = .error () ∧
    run emptyDriveEnv { okInputs with mirrorDirectoryStructure := "yes" } =
      run emptyDriveEnv { okInputs with mirrorDirectoryStructure := "false" } :=
  ⟨rfl,
   (c9_invalid_bool_inputs emptyDriveEnv okInputs "yes" (by decide) rfl).2.2.2.2⟩

/-- C10: the existence-check query is built by plain interpolation with no
quoting: for every name and parent id the emitted list call carries exactly
the concatenation of the five fragments.  Because a name may itself contain
single quotes, the mapping from (name, parent) to query is not injective —
the distinct pairs (`a`, `b' and 'c`) and (`a' and 'b`, `c`) produce the
identical query string — so for quote-containing names the query no longer
expresses an exact-name match. -/
theorem c10_query_interpolation (env : Env) (n p : String) :
    findQuery n p =
      "name = '" ++ n ++ "' and '" ++ p ++ "' in parents and trashed = false" ∧
    (findFileByName env n p).2 =
      [ApiCall.listQuery
        ("name = '" ++ n ++ "' and '" ++ p ++ "' in parents and trashed = false")] ∧
    findQuery "a" "b' and 'c" = findQuery "a' and 'b" "c" ∧
    ("a", "b' and 'c") ≠ (("a' and 'b", "c") : String × String) :=
  ⟨rfl, rfl, by decide, by decide⟩

end DriveUpload
